import Mathlib

/-!
# Verification of the Oryol D3D11 shader factory and GPUParticles sample

Shallow embedding of `src/code/Modules/Gfx/d3d11/d3d11ShaderFactory.cc` and of
the frame-update logic of `src/code/Samples/GPUParticles/GPUParticles.cc`.

Modelling conventions:
* D3D11 device-object pointers are `Option Nat`: `none` is a null pointer, and
  `some id` a live device object with a fresh id drawn from a counter.
* Calls into the device and the renderer are recorded, in program order, as a
  `List DevEvent` trace.
* `o_assert` always aborts on failure; `o_assert_dbg` aborts only when the
  `dbg` flag (debug build) is set.  A fatal assertion abort, and undefined
  behaviour such as dereferencing a null device pointer, are modelled as a
  `none` result (the operation does not return).
* The device accepts or rejects each creation call according to an oracle
  (`Device`), indexed by the loop index of the call site, standing for the
  `HRESULT` of `CreateVertexShader` / `CreatePixelShader` / `CreateBuffer`.
-/

namespace Oryol

/-- `ShaderType::Code` (stage a uniform block attaches to). -/
inductive ShaderType where
  | VertexShader
  | FragmentShader
  | InvalidShaderType
  deriving DecidableEq

/-- `ResourceState::Code` of the resource system. -/
inductive ResourceState where
  | Initial
  | Setup
  | Pending
  | Valid
  | Failed
  deriving DecidableEq

/-- Modelled from the spec: the reserved "no binding" sentinel for a bind
slot (Oryol's `InvalidIndex`, declared outside `src/`), meaning the uniform
block is texture-only and needs no device buffer. -/
def InvalidIndex : Int := -1

/-- Modelled from the spec: `Memory::RoundUp` (declared outside `src/`),
the smallest multiple of the alignment granularity that is greater than or
equal to the requested byte size. -/
def RoundUp (val align : Nat) : Nat :=
  ((val + align - 1) / align) * align

/-- `UniformLayout`: only the byte size of the non-texture data matters here
(`ByteSizeWithoutTextures`). -/
structure UniformLayout where
  byteSizeWithoutTextures : Nat
  deriving DecidableEq

/-- One program variant of a `ShaderSetup`: feature mask plus the HLSL5
vertex- and fragment-stage bytecode blobs (`none` models a null pointer). -/
structure ProgramDesc where
  mask : Nat
  vsByteCode : Option (List Nat)
  fsByteCode : Option (List Nat)
  deriving DecidableEq

/-- One uniform-block descriptor of a `ShaderSetup`: bind slot (or
`InvalidIndex`), shader stage, and layout. -/
structure UniformBlockDesc where
  bindSlot : Int
  shaderStage : ShaderType
  layout : UniformLayout
  deriving DecidableEq

/-- `ShaderSetup`: the immutable shader-program description. -/
structure ShaderSetup where
  programs : List ProgramDesc
  uniformBlocks : List UniformBlockDesc
  deriving DecidableEq

/-- One vertex/pixel shader pair of the shader resource, tagged with the
program's feature mask (what `shader::addShaders` appends). -/
structure programEntry where
  mask : Nat
  vs : Option Nat
  ps : Option Nat
  deriving DecidableEq

/-- One uniform-block entry of the shader resource (what
`shader::addUniformBlockEntry` appends): nullable constant-buffer pointer,
shader stage and bind slot. -/
structure ubEntry where
  constantBuffer : Option Nat
  bindShaderStage : ShaderType
  bindSlot : Int
  deriving DecidableEq

/-- The `shader` resource: its immutable `Setup` description plus the two
entry sequences populated by the factory. -/
structure shader where
  Setup : ShaderSetup
  programEntries : List programEntry
  uniformBlockEntries : List ubEntry
  deriving DecidableEq

/-- `shader::Clear()`: drop all entries (back to the empty state). -/
def shader.Clear (shd : shader) : shader :=
  { shd with programEntries := [], uniformBlockEntries := [] }

/-- The device oracle: whether the k-th `CreateVertexShader`,
`CreatePixelShader` and `CreateBuffer` call of an operation reports a
`SUCCEEDED` HRESULT. -/
structure Device where
  vsOk : Nat → Bool
  psOk : Nat → Bool
  bufOk : Nat → Bool

/-- `gfxPointers`: the borrowed back-references handed to `Setup`; the
factory only reads the renderer's `d3d11Device` out of them. -/
structure gfxPointers where
  rendererDevice : Option Device

/-- The factory state: validity flag and borrowed device pointer. -/
structure d3d11ShaderFactory where
  isValid : Bool
  d3d11Device : Option Device

/-- One observable call to a collaborator: the renderer's
`invalidateShaderState`, the device's creation calls (with the created
object's id, and the buffer's `ByteWidth`), and `Release` calls. -/
inductive DevEvent where
  | invalidateShaderState
  | createVertexShader (id : Nat)
  | createPixelShader (id : Nat)
  | createBuffer (id : Nat) (byteWidth : Nat)
  | releaseVertexShader (id : Nat)
  | releasePixelShader (id : Nat)
  | releaseBuffer (id : Nat)
  deriving DecidableEq

/-- `d3d11ShaderFactory::Setup`: `o_assert_dbg(!isValid)`, then store the
borrowed pointers and device. -/
def d3d11ShaderFactory.Setup (dbg : Bool) (fac : d3d11ShaderFactory)
    (ptrs : gfxPointers) : Option d3d11ShaderFactory :=
  if dbg && fac.isValid then none
  else some { isValid := true, d3d11Device := ptrs.rendererDevice }

/-- `d3d11ShaderFactory::Discard`: `o_assert_dbg(isValid)`, then clear the
borrowed references. -/
def d3d11ShaderFactory.Discard (dbg : Bool) (fac : d3d11ShaderFactory) :
    Option d3d11ShaderFactory :=
  if dbg && !fac.isValid then none
  else some { isValid := false, d3d11Device := none }

/-- The per-program loop of `SetupResource` (lines 62-86): for each program,
fetch the vertex bytecode (`o_assert_dbg(vsPtr)`), `CreateVertexShader`
(`o_assert(SUCCEEDED(hr))`), same for the pixel shader, then `addShaders`.
`idx` is the loop index (selecting the device oracle entry), `nextId` the
fresh-handle counter.  Returns the appended program entries, the device
events in call order, and the next fresh id. -/
def setupPrograms (dbg : Bool) (dev : Device) :
    Nat → Nat → List ProgramDesc → Option (List programEntry × List DevEvent × Nat)
  | _, nextId, [] => some ([], [], nextId)
  | idx, nextId, p :: rest =>
    if dbg && !p.vsByteCode.isSome then none
    else if !dev.vsOk idx then none
    else
      let vsId := nextId
      if dbg && !p.fsByteCode.isSome then none
      else if !dev.psOk idx then none
      else
        let psId := nextId + 1
        match setupPrograms dbg dev (idx + 1) (nextId + 2) rest with
        | none => none
        | some (entries, evs, nid) =>
          some ({ mask := p.mask, vs := some vsId, ps := some psId } :: entries,
                DevEvent.createVertexShader vsId ::
                  DevEvent.createPixelShader psId :: evs,
                nid)

/-- The constant-buffer loop of `SetupResource` (lines 91-114): for each
uniform block, if `bindSlot != InvalidIndex` then
`o_assert_dbg(byteSize > 0)`, round the byte size up to a multiple of 16 and
`CreateBuffer` (`o_assert(SUCCEEDED(hr))`); the buffer pointer stays null for
texture-only blocks.  Then `addUniformBlockEntry`. -/
def setupUniformBlocks (dbg : Bool) (dev : Device) :
    Nat → Nat → List UniformBlockDesc → Option (List ubEntry × List DevEvent × Nat)
  | _, nextId, [] => some ([], [], nextId)
  | idx, nextId, ub :: rest =>
    if ub.bindSlot != InvalidIndex then
      if dbg && !(ub.layout.byteSizeWithoutTextures > 0 : Bool) then none
      else
        let byteWidth := RoundUp ub.layout.byteSizeWithoutTextures 16
        if !dev.bufOk idx then none
        else
          let bufId := nextId
          match setupUniformBlocks dbg dev (idx + 1) (nextId + 1) rest with
          | none => none
          | some (entries, evs, nid) =>
            some ({ constantBuffer := some bufId,
                    bindShaderStage := ub.shaderStage,
                    bindSlot := ub.bindSlot } :: entries,
                  DevEvent.createBuffer bufId byteWidth :: evs, nid)
    else
      match setupUniformBlocks dbg dev (idx + 1) nextId rest with
      | none => none
      | some (entries, evs, nid) =>
        some ({ constantBuffer := none,
                bindShaderStage := ub.shaderStage,
                bindSlot := ub.bindSlot } :: entries,
              evs, nid)

/-- `d3d11ShaderFactory::SetupResource` (lines 50-118): debug asserts on the
factory, `invalidateShaderState`, the program loop, the constant-buffer
loop, the debug postcondition on the uniform-entry count, then return
`ResourceState::Valid`.  The collected entry lists are appended to the
resource, modelling the per-iteration `addShaders` /
`addUniformBlockEntry` calls. -/
def SetupResource (dbg : Bool) (fac : d3d11ShaderFactory) (shd : shader) :
    Option (shader × ResourceState × List DevEvent) :=
  if dbg && !fac.isValid then none
  else if dbg && !fac.d3d11Device.isSome then none
  else
    match fac.d3d11Device with
    | none => none
    | some dev =>
      match setupPrograms dbg dev 0 0 shd.Setup.programs with
      | none => none
      | some (pes, pevs, nid) =>
        match setupUniformBlocks dbg dev 0 nid shd.Setup.uniformBlocks with
        | none => none
        | some (ues, uevs, _) =>
          let shd' : shader :=
            { shd with
              programEntries := shd.programEntries ++ pes,
              uniformBlockEntries := shd.uniformBlockEntries ++ ues }
          if dbg && !(shd'.uniformBlockEntries.length == shd.Setup.uniformBlocks.length)
          then none
          else some (shd', ResourceState.Valid,
                     DevEvent.invalidateShaderState :: (pevs ++ uevs))

/-- The program-release loop of `DestroyResource` (lines 128-138): release
every non-null vertex and pixel shader, in order. -/
def releasePrograms : List programEntry → List DevEvent
  | [] => []
  | e :: rest =>
    (match e.vs with
     | some id => [DevEvent.releaseVertexShader id]
     | none => []) ++
    (match e.ps with
     | some id => [DevEvent.releasePixelShader id]
     | none => []) ++
    releasePrograms rest

/-- The constant-buffer-release loop of `DestroyResource` (lines 140-148):
release every non-null constant buffer, in order. -/
def releaseBuffers : List ubEntry → List DevEvent
  | [] => []
  | e :: rest =>
    (match e.constantBuffer with
     | some id => [DevEvent.releaseBuffer id]
     | none => []) ++
    releaseBuffers rest

/-- `d3d11ShaderFactory::DestroyResource` (lines 121-151): debug asserts,
`invalidateShaderState`, release all non-null shaders then all non-null
buffers, then `shd.Clear()`. -/
def DestroyResource (dbg : Bool) (fac : d3d11ShaderFactory) (shd : shader) :
    Option (shader × List DevEvent) :=
  if dbg && !fac.isValid then none
  else if dbg && !fac.d3d11Device.isSome then none
  else
    some (shd.Clear,
          DevEvent.invalidateShaderState ::
            (releasePrograms shd.programEntries ++
             releaseBuffers shd.uniformBlockEntries))

/-- Modelled from the spec: the well-formedness validation of a Program
Description ("`programs` is non-empty; every variant's bytecode pointers are
non-null; `byteSize` for any block that has a real `bindSlot` must be > 0").
The validating code (the `ShaderSetup` builder / resource container) is not
under `src/`. -/
def ShaderSetupWellFormed (s : ShaderSetup) : Bool :=
  !s.programs.isEmpty &&
  s.programs.all (fun p => p.vsByteCode.isSome && p.fsByteCode.isSome) &&
  s.uniformBlocks.all (fun ub =>
    ub.bindSlot == InvalidIndex || ub.layout.byteSizeWithoutTextures > 0)

/-- Modelled from the spec: the creation entry point, which checks the
Program Description invariants (input validation, fatal on violation) before
handing the description to the factory's `SetupResource`. -/
def CreateShaderResource (dbg : Bool) (fac : d3d11ShaderFactory) (shd : shader) :
    Option (shader × ResourceState × List DevEvent) :=
  if ShaderSetupWellFormed shd.Setup then SetupResource dbg fac shd else none

/-! ## Trace observations -/

/-- The release event matching a creation event (identity elsewhere). -/
def toRelease : DevEvent → DevEvent
  | DevEvent.createVertexShader id => DevEvent.releaseVertexShader id
  | DevEvent.createPixelShader id => DevEvent.releasePixelShader id
  | DevEvent.createBuffer id _ => DevEvent.releaseBuffer id
  | e => e

/-- Is the event a shader-stage creation call? -/
def isCreateShader : DevEvent → Bool
  | DevEvent.createVertexShader _ => true
  | DevEvent.createPixelShader _ => true
  | _ => false

/-- Is the event a buffer creation call? -/
def isCreateBuf : DevEvent → Bool
  | DevEvent.createBuffer _ _ => true
  | _ => false

/-- Is the event a `Release` call? -/
def isRelease : DevEvent → Bool
  | DevEvent.releaseVertexShader _ => true
  | DevEvent.releasePixelShader _ => true
  | DevEvent.releaseBuffer _ => true
  | _ => false

/-- The ids of the device objects created along a trace, in creation order. -/
def createdIds (evs : List DevEvent) : List Nat :=
  evs.filterMap fun e =>
    match e with
    | DevEvent.createVertexShader id => some id
    | DevEvent.createPixelShader id => some id
    | DevEvent.createBuffer id _ => some id
    | _ => none

/-- How many uniform blocks carry a real bind slot (need a device buffer). -/
def numRealSlots (ubs : List UniformBlockDesc) : Nat :=
  (ubs.filter fun ub => ub.bindSlot != InvalidIndex).length

/-! ## Concrete inputs (the spec's scenario) -/

/-- A device whose creation calls all succeed. -/
def devAll : Device := ⟨fun _ => true, fun _ => true, fun _ => true⟩

/-- A factory that completed `Setup` against `devAll`. -/
def facReady : d3d11ShaderFactory := { isValid := true, d3d11Device := some devAll }

/-- The spec's scenario: one program variant, one uniform block with
`bindSlot = 3` and `byteSize = 20`, one texture-only block. -/
def sampleSetup : ShaderSetup :=
  { programs := [{ mask := 0, vsByteCode := some [1], fsByteCode := some [2] }],
    uniformBlocks :=
      [{ bindSlot := 3, shaderStage := ShaderType.FragmentShader,
         layout := { byteSizeWithoutTextures := 20 } },
       { bindSlot := InvalidIndex, shaderStage := ShaderType.FragmentShader,
         layout := { byteSizeWithoutTextures := 0 } }] }

/-- An empty shader resource carrying the scenario description. -/
def sampleShd : shader :=
  { Setup := sampleSetup, programEntries := [], uniformBlockEntries := [] }

/-- The shader resource `SetupResource` produces from `sampleShd`. -/
def sampleShdOut : shader :=
  { Setup := sampleSetup,
    programEntries := [{ mask := 0, vs := some 0, ps := some 1 }],
    uniformBlockEntries :=
      [{ constantBuffer := some 2, bindShaderStage := ShaderType.FragmentShader,
         bindSlot := 3 },
       { constantBuffer := none, bindShaderStage := ShaderType.FragmentShader,
         bindSlot := InvalidIndex }] }

/-- The collaborator calls `SetupResource` makes on the scenario. -/
def sampleTrace : List DevEvent :=
  [DevEvent.invalidateShaderState, DevEvent.createVertexShader 0,
   DevEvent.createPixelShader 1, DevEvent.createBuffer 2 32]

/-- A description with zero program variants. -/
def noProgSetup : ShaderSetup := { programs := [], uniformBlocks := [] }

/-- An empty shader resource carrying the zero-variant description. -/
def noProgShd : shader :=
  { Setup := noProgSetup, programEntries := [], uniformBlockEntries := [] }

/-- The collaborator calls `DestroyResource` makes on the scenario resource. -/
def sampleDestroyTrace : List DevEvent :=
  [DevEvent.invalidateShaderState, DevEvent.releaseVertexShader 0,
   DevEvent.releasePixelShader 1, DevEvent.releaseBuffer 2]

/-- A factory before its first `Setup` call. -/
def facInitial : d3d11ShaderFactory := { isValid := false, d3d11Device := none }

/-- Pointers with no device behind them. -/
def ptrsNone : gfxPointers := { rendererDevice := none }

/-- The factory state `Setup` produces from `facInitial` and `ptrsNone`. -/
def facAfterSetup : d3d11ShaderFactory := { isValid := true, d3d11Device := none }

/-! ## GPUParticles sample (frame-update state) -/

/-- `const int NumParticleBuffers = 2` (GPUParticles.cc line 16). -/
def NumParticleBuffers : Int := 2

/-- `const int NumParticlesEmittedPerFrame = 100` (line 17). -/
def NumParticlesEmittedPerFrame : Int := 100

/-- `const int NumParticlesX = 1024` (line 18). -/
def NumParticlesX : Int := 1024

/-- `const int NumParticlesY = 1024` (line 19). -/
def NumParticlesY : Int := 1024

/-- `const int MaxNumParticles = NumParticlesX * NumParticlesY` (line 20). -/
def MaxNumParticles : Int := NumParticlesX * NumParticlesY

/-- The integer state `GPUParticlesApp::OnRunning` updates each frame. -/
structure GPUParticlesApp where
  frameCount : Int
  curNumParticles : Int
  deriving DecidableEq

/-- The member initializers `frameCount = 0`, `curNumParticles = 0`. -/
def gpuParticlesInit : GPUParticlesApp := { frameCount := 0, curNumParticles := 0 }

/-- Lines 58-65 of `OnRunning`: increment `frameCount`, add
`NumParticlesEmittedPerFrame` to `curNumParticles` and clamp at
`MaxNumParticles`. -/
def OnRunningStep (s : GPUParticlesApp) : GPUParticlesApp :=
  let frameCount := s.frameCount + 1
  let bumped := s.curNumParticles + NumParticlesEmittedPerFrame
  let cur := if bumped > MaxNumParticles then MaxNumParticles else bumped
  { frameCount := frameCount, curNumParticles := cur }

/-- Line 68: `readIndex = (frameCount + 1) % NumParticleBuffers` (C++ `%` on
`int` is the truncating remainder, `Int.tmod`). -/
def readIndex (frameCount : Int) : Int :=
  Int.tmod (frameCount + 1) NumParticleBuffers

/-- Line 69: `drawIndex = frameCount % NumParticleBuffers`. -/
def drawIndex (frameCount : Int) : Int :=
  Int.tmod frameCount NumParticleBuffers

end Oryol

namespace Oryol

theorem setupPrograms_spec (dbg : Bool) (dev : Device) :
    ∀ (progs : List ProgramDesc) (idx n : Nat) (es : List programEntry)
      (evs : List DevEvent) (m : Nat),
      setupPrograms dbg dev idx n progs = some (es, evs, m) →
      es.length = progs.length ∧
      es.map programEntry.mask = progs.map ProgramDesc.mask ∧
      (∀ e ∈ es, e.vs.isSome ∧ e.ps.isSome) ∧
      releasePrograms es = evs.map toRelease ∧
      (∀ e ∈ evs, isCreateShader e = true) ∧
      createdIds evs = List.range' n (2 * progs.length) ∧
      evs.length = 2 * progs.length ∧
      m = n + 2 * progs.length := by
  intro progs
  induction progs with
  | nil =>
    intro idx n es evs m h
    simp only [setupPrograms, Option.some.injEq, Prod.mk.injEq] at h
    obtain ⟨h1, h2, h3⟩ := h
    subst h1; subst h2; subst h3
    simp [releasePrograms, createdIds]
  | cons p rest ih =>
    intro idx n es evs m h
    rw [setupPrograms] at h
    split at h
    · exact absurd h (by simp)
    split at h
    · exact absurd h (by simp)
    split at h
    · exact absurd h (by simp)
    split at h
    · exact absurd h (by simp)
    split at h
    · exact absurd h (by simp)
    next entries evs' nid heq =>
      simp only [Option.some.injEq, Prod.mk.injEq] at h
      obtain ⟨h1, h2, h3⟩ := h
      subst h1; subst h2; subst h3
      obtain ⟨ihl, ihm, ihsome, ihrel, ihcr, ihids, ihlen, ihnid⟩ :=
        ih (idx + 1) (n + 2) entries evs' nid heq
      refine ⟨by simp [ihl], by simp [ihm], ?_, ?_, ?_, ?_, by simp [List.length_cons, ihlen]; omega, by simp [List.length_cons]; omega⟩
      · intro e he
        rcases List.mem_cons.mp he with rfl | he'
        · exact ⟨rfl, rfl⟩
        · exact ihsome e he'
      · simp [releasePrograms, toRelease, ihrel]
      · intro e he
        rcases List.mem_cons.mp he with rfl | he'
        · rfl
        rcases List.mem_cons.mp he' with rfl | he''
        · rfl
        · exact ihcr e he''
      · have h2 : 2 * (rest.length + 1) = (2 * rest.length + 1) + 1 := by omega
        simp only [List.length_cons, h2, List.range'_succ]
        simp [createdIds] at ihids ⊢
        exact ihids


end Oryol

namespace Oryol

theorem setupUniformBlocks_spec (dbg : Bool) (dev : Device) :
    ∀ (ubs : List UniformBlockDesc) (idx n : Nat) (es : List ubEntry)
      (evs : List DevEvent) (m : Nat),
      setupUniformBlocks dbg dev idx n ubs = some (es, evs, m) →
      es.length = ubs.length ∧
      es.map ubEntry.bindSlot = ubs.map UniformBlockDesc.bindSlot ∧
      es.map ubEntry.bindShaderStage = ubs.map UniformBlockDesc.shaderStage ∧
      releaseBuffers es = evs.map toRelease ∧
      (∀ e ∈ evs, isCreateBuf e = true) ∧
      createdIds evs = List.range' n (numRealSlots ubs) ∧
      evs.length = numRealSlots ubs ∧
      m = n + numRealSlots ubs ∧
      List.Forall₂ (fun ub e =>
        e.bindShaderStage = ub.shaderStage ∧ e.bindSlot = ub.bindSlot ∧
        (ub.bindSlot = InvalidIndex → e.constantBuffer = none) ∧
        (ub.bindSlot ≠ InvalidIndex → ∃ id,
          e.constantBuffer = some id ∧
          DevEvent.createBuffer id (RoundUp ub.layout.byteSizeWithoutTextures 16) ∈ evs))
        ubs es := by
  intro ubs
  induction ubs with
  | nil =>
    intro idx n es evs m h
    simp only [setupUniformBlocks, Option.some.injEq, Prod.mk.injEq] at h
    obtain ⟨h1, h2, h3⟩ := h
    subst h1; subst h2; subst h3
    simp [releaseBuffers, createdIds, numRealSlots]
  | cons ub rest ih =>
    intro idx n es evs m h
    rw [setupUniformBlocks] at h
    split at h
    next hreal =>
      -- bindSlot != InvalidIndex : a device buffer is created
      have hcnt : numRealSlots (ub :: rest) = numRealSlots rest + 1 := by
        simp [numRealSlots, List.filter_cons, hreal, Nat.add_comm]
      split at h
      · exact absurd h (by simp)
      split at h
      · exact absurd h (by simp)
      split at h
      · exact absurd h (by simp)
      next entries evs' nid heq =>
        simp only [Option.some.injEq, Prod.mk.injEq] at h
        obtain ⟨h1, h2, h3⟩ := h
        subst h1; subst h2; subst h3
        obtain ⟨ihl, ihslot, ihstage, ihrel, ihcr, ihids, ihlen, ihnid, ihfa⟩ :=
          ih (idx + 1) (n + 1) entries evs' nid heq
        refine ⟨by simp [ihl], by simp [ihslot], by simp [ihstage], ?_, ?_, ?_,
                by simp [hcnt, ihlen], by rw [hcnt]; omega, ?_⟩
        · simp [releaseBuffers, toRelease, ihrel]
        · intro e he
          rcases List.mem_cons.mp he with rfl | he'
          · rfl
          · exact ihcr e he'
        · rw [hcnt, List.range'_succ]
          simp [createdIds] at ihids ⊢
          exact ihids
        · refine List.forall₂_cons.mpr ⟨⟨rfl, rfl, fun hinv => ?_, fun _ => ?_⟩, ?_⟩
          · exact absurd hinv (by simpa [bne_iff_ne] using hreal)
          · exact ⟨n, rfl, List.mem_cons_self _ _⟩
          · refine ihfa.imp fun a b hab => ⟨hab.1, hab.2.1, hab.2.2.1, fun hne => ?_⟩
            obtain ⟨id, hid, hmem⟩ := hab.2.2.2 hne
            exact ⟨id, hid, List.mem_cons_of_mem _ hmem⟩
    next hnotreal =>
      -- texture-only block: null buffer, no device call
      have hslot : ub.bindSlot = InvalidIndex := by
        simpa [bne_iff_ne] using hnotreal
      have hcnt : numRealSlots (ub :: rest) = numRealSlots rest := by
        simp [numRealSlots, List.filter_cons, hnotreal]
      split at h
      · exact absurd h (by simp)
      next entries evs' nid heq =>
        simp only [Option.some.injEq, Prod.mk.injEq] at h
        obtain ⟨h1, h2, h3⟩ := h
        subst h1; subst h2; subst h3
        obtain ⟨ihl, ihslot, ihstage, ihrel, ihcr, ihids, ihlen, ihnid, ihfa⟩ :=
          ih (idx + 1) n entries evs' nid heq
        refine ⟨by simp [ihl], by simp [ihslot], by simp [ihstage], ?_, ihcr,
                by rw [hcnt]; exact ihids, by rw [hcnt]; exact ihlen,
                by rw [hcnt]; exact ihnid, ?_⟩
        · simp [releaseBuffers, ihrel]
        · exact List.forall₂_cons.mpr
            ⟨⟨rfl, rfl, fun _ => rfl, fun hne => absurd hslot hne⟩, ihfa⟩

end Oryol

namespace Oryol

theorem RoundUp_spec (b : Nat) :
    16 ∣ RoundUp b 16 ∧ b ≤ RoundUp b 16 ∧
    ∀ w, 16 ∣ w → b ≤ w → RoundUp b 16 ≤ w := by
  unfold RoundUp
  refine ⟨⟨(b + 16 - 1) / 16, by omega⟩, by omega, ?_⟩
  intro w hw hbw
  omega

theorem SetupResource_some_elim (dbg : Bool) (fac : d3d11ShaderFactory)
    (shd shd' : shader) (st : ResourceState) (tr : List DevEvent)
    (h : SetupResource dbg fac shd = some (shd', st, tr)) :
    ∃ dev pes pevs nid ues uevs m,
      fac.d3d11Device = some dev ∧
      setupPrograms dbg dev 0 0 shd.Setup.programs = some (pes, pevs, nid) ∧
      setupUniformBlocks dbg dev 0 nid shd.Setup.uniformBlocks = some (ues, uevs, m) ∧
      shd' = { shd with programEntries := shd.programEntries ++ pes,
                        uniformBlockEntries := shd.uniformBlockEntries ++ ues } ∧
      st = ResourceState.Valid ∧
      tr = DevEvent.invalidateShaderState :: (pevs ++ uevs) := by
  rw [SetupResource] at h
  split at h
  · exact absurd h (by simp)
  split at h
  · exact absurd h (by simp)
  split at h
  · exact absurd h (by simp)
  next dev hdev =>
    split at h
    · exact absurd h (by simp)
    next pes pevs nid hpeq =>
      split at h
      · exact absurd h (by simp)
      next ues uevs m hueq =>
        simp only [] at h
        split at h
        · exact absurd h (by simp)
        simp only [Option.some.injEq, Prod.mk.injEq] at h
        obtain ⟨h1, h2, h3⟩ := h
        exact ⟨dev, pes, pevs, nid, ues, uevs, m, hdev, hpeq, hueq,
               h1.symm, h2.symm, h3.symm⟩

end Oryol

namespace Oryol

theorem DestroyResource_some_elim (dbg : Bool) (fac : d3d11ShaderFactory)
    (shd shd'' : shader) (dtr : List DevEvent)
    (h : DestroyResource dbg fac shd = some (shd'', dtr)) :
    shd'' = shd.Clear ∧
    dtr = DevEvent.invalidateShaderState ::
      (releasePrograms shd.programEntries ++
       releaseBuffers shd.uniformBlockEntries) := by
  rw [DestroyResource] at h
  split at h
  · exact absurd h (by simp)
  split at h
  · exact absurd h (by simp)
  simp only [Option.some.injEq, Prod.mk.injEq] at h
  exact ⟨h.1.symm, h.2.symm⟩

theorem isCreateBuf_false_of_isCreateShader (e : DevEvent)
    (h : isCreateShader e = true) : isCreateBuf e = false := by
  cases e <;> simp [isCreateShader, isCreateBuf] at h ⊢

theorem isCreateBuf_true_mem (e : DevEvent) (h : isCreateBuf e = true) :
    isCreateShader e = false := by
  cases e <;> simp [isCreateShader, isCreateBuf] at h ⊢

/-- C1: after `SetupResource` on a description with P programs and U uniform
blocks (starting from an empty resource), the resource holds exactly P variant
entries (a vertex/pixel stage pair per input program, tagged with its mask) and
exactly U uniform entries, in the same order as the input sequences; in
particular `len(variants) == P` and `len(uniformEntries) == U` on return. -/
theorem SetupResource_entry_counts (dbg : Bool) (fac : d3d11ShaderFactory)
    (shd shd' : shader) (st : ResourceState) (tr : List DevEvent)
    (hp : shd.programEntries = []) (hu : shd.uniformBlockEntries = [])
    (h : SetupResource dbg fac shd = some (shd', st, tr)) :
    shd'.programEntries.length = shd.Setup.programs.length ∧
    shd'.uniformBlockEntries.length = shd.Setup.uniformBlocks.length ∧
    shd'.programEntries.map programEntry.mask
      = shd.Setup.programs.map ProgramDesc.mask ∧
    (∀ e ∈ shd'.programEntries, e.vs.isSome ∧ e.ps.isSome) ∧
    shd'.uniformBlockEntries.map ubEntry.bindSlot
      = shd.Setup.uniformBlocks.map UniformBlockDesc.bindSlot ∧
    shd'.uniformBlockEntries.map ubEntry.bindShaderStage
      = shd.Setup.uniformBlocks.map UniformBlockDesc.shaderStage := by
  obtain ⟨dev, pes, pevs, nid, ues, uevs, m, hdev, hpeq, hueq, hshd, hst, htr⟩ :=
    SetupResource_some_elim dbg fac shd shd' st tr h
  obtain ⟨pl, pm, psome, -, -, -, -, -⟩ :=
    setupPrograms_spec dbg dev _ 0 0 _ _ _ hpeq
  obtain ⟨ul, uslot, ustage, -, -, -, -, -, -⟩ :=
    setupUniformBlocks_spec dbg dev _ 0 nid _ _ _ hueq
  subst hshd
  simp only [hp, hu, List.nil_append]
  exact ⟨pl, ul, pm, psome, uslot, ustage⟩

/-- C2: for each uniform-block descriptor, in order: a sentinel `bindSlot`
(`InvalidIndex`) yields a null buffer handle and no device allocation (the
number of `CreateBuffer` calls equals the number of blocks with a real slot);
a real `bindSlot` yields a non-null handle whose buffer was created with the
smallest multiple of 16 that is ≥ the block's byte size (20 rounds to 32), and
every entry carries the block's `shaderStage` and `bindSlot`. -/
theorem SetupResource_uniform_buffers (dbg : Bool) (fac : d3d11ShaderFactory)
    (shd shd' : shader) (st : ResourceState) (tr : List DevEvent)
    (hp : shd.programEntries = []) (hu : shd.uniformBlockEntries = [])
    (h : SetupResource dbg fac shd = some (shd', st, tr)) :
    List.Forall₂ (fun ub e =>
      e.bindShaderStage = ub.shaderStage ∧ e.bindSlot = ub.bindSlot ∧
      (ub.bindSlot = InvalidIndex → e.constantBuffer = none) ∧
      (ub.bindSlot ≠ InvalidIndex → ∃ id,
        e.constantBuffer = some id ∧
        DevEvent.createBuffer id (RoundUp ub.layout.byteSizeWithoutTextures 16) ∈ tr ∧
        16 ∣ RoundUp ub.layout.byteSizeWithoutTextures 16 ∧
        ub.layout.byteSizeWithoutTextures ≤ RoundUp ub.layout.byteSizeWithoutTextures 16 ∧
        ∀ w, 16 ∣ w → ub.layout.byteSizeWithoutTextures ≤ w →
          RoundUp ub.layout.byteSizeWithoutTextures 16 ≤ w))
      shd.Setup.uniformBlocks shd'.uniformBlockEntries ∧
    (tr.filter isCreateBuf).length = numRealSlots shd.Setup.uniformBlocks := by
  obtain ⟨dev, pes, pevs, nid, ues, uevs, m, hdev, hpeq, hueq, hshd, hst, htr⟩ :=
    SetupResource_some_elim dbg fac shd shd' st tr h
  obtain ⟨-, -, -, -, pcr, -, -, -⟩ :=
    setupPrograms_spec dbg dev _ 0 0 _ _ _ hpeq
  obtain ⟨-, -, -, -, ucr, -, ulen, -, ufa⟩ :=
    setupUniformBlocks_spec dbg dev _ 0 nid _ _ _ hueq
  subst hshd
  constructor
  · simp only [hu, List.nil_append]
    refine ufa.imp fun ub e hab => ⟨hab.1, hab.2.1, hab.2.2.1, fun hne => ?_⟩
    obtain ⟨id, hid, hmem⟩ := hab.2.2.2 hne
    obtain ⟨hdvd, hle, hmin⟩ := RoundUp_spec ub.layout.byteSizeWithoutTextures
    refine ⟨id, hid, ?_, hdvd, hle, hmin⟩
    rw [htr]
    exact List.mem_cons_of_mem _ (List.mem_append_right _ hmem)
  · rw [htr]
    have hfp : pevs.filter isCreateBuf = [] := by
      rw [List.filter_eq_nil]
      intro e he
      simp [isCreateBuf_false_of_isCreateShader e (pcr e he)]
    have hfu : uevs.filter isCreateBuf = uevs := by
      rw [List.filter_eq_self]
      exact ucr
    simp [List.filter_cons, List.filter_append, hfp, hfu, isCreateBuf, ulen]

end Oryol

namespace Oryol

theorem createdIds_append (a b : List DevEvent) :
    createdIds (a ++ b) = createdIds a ++ createdIds b :=
  List.filterMap_append a b _

theorem toRelease_isRelease (e : DevEvent)
    (h : (isCreateShader e || isCreateBuf e) = true) :
    isRelease (toRelease e) = true := by
  cases e <;> simp [isCreateShader, isCreateBuf, toRelease, isRelease] at h ⊢

/-- C3: `SetupResource` followed by `DestroyResource` leaves the resource with
zero variant entries and zero uniform entries, and the destroy trace is the
invalidation followed by exactly one matching `Release` per creation event of
the create trace, in order, with all created ids distinct — one release per
non-null created object, none for null buffer entries, no leak and no
double-release. -/
theorem create_destroy_roundtrip (dbg dbg2 : Bool)
    (fac fac2 : d3d11ShaderFactory) (shd shd' shd'' : shader)
    (st : ResourceState) (ctr dtr : List DevEvent)
    (hp : shd.programEntries = []) (hu : shd.uniformBlockEntries = [])
    (hc : SetupResource dbg fac shd = some (shd', st, ctr))
    (hd : DestroyResource dbg2 fac2 shd' = some (shd'', dtr)) :
    shd''.programEntries = [] ∧ shd''.uniformBlockEntries = [] ∧
    ∃ creates, ctr = DevEvent.invalidateShaderState :: creates ∧
      dtr = DevEvent.invalidateShaderState :: creates.map toRelease ∧
      (createdIds creates).Nodup := by
  obtain ⟨dev, pes, pevs, nid, ues, uevs, m, hdev, hpeq, hueq, hshd, hst, htr⟩ :=
    SetupResource_some_elim dbg fac shd shd' st ctr hc
  obtain ⟨hshd'', hdtr⟩ := DestroyResource_some_elim dbg2 fac2 shd' shd'' dtr hd
  obtain ⟨-, -, -, prel, -, pids, -, hnid⟩ :=
    setupPrograms_spec dbg dev _ 0 0 _ _ _ hpeq
  obtain ⟨-, -, -, urel, -, uids, -, -, -⟩ :=
    setupUniformBlocks_spec dbg dev _ 0 nid _ _ _ hueq
  subst hshd; subst hshd''
  refine ⟨by simp [shader.Clear], by simp [shader.Clear], pevs ++ uevs, htr, ?_, ?_⟩
  · rw [hdtr]
    simp only [shader.Clear, hp, hu, List.nil_append, List.map_append]
    rw [prel, urel]
  · rw [createdIds_append, pids, uids, hnid]
    have happ := List.range'_append 0 (2 * shd.Setup.programs.length)
      (numRealSlots shd.Setup.uniformBlocks) 1
    simp only [Nat.zero_add, Nat.one_mul] at happ
    simp only [Nat.zero_add]
    rw [happ]
    exact List.nodup_range' _ _

/-- C4: a description with zero program variants fails the input validation
(modelled from the spec, as the validating code is outside `src/`): the
non-empty `programs` invariant is violated and `CreateShaderResource` aborts
fatally for every device, so no device creation call is ever attempted. -/
theorem CreateShaderResource_requires_programs (shd : shader)
    (h : shd.Setup.programs = []) :
    ShaderSetupWellFormed shd.Setup = false ∧
    ∀ (dbg : Bool) (fac : d3d11ShaderFactory),
      CreateShaderResource dbg fac shd = none := by
  have hwf : ShaderSetupWellFormed shd.Setup = false := by
    simp [ShaderSetupWellFormed, h]
  exact ⟨hwf, fun dbg fac => by simp [CreateShaderResource, hwf]⟩

/-- C5: whenever `SetupResource` returns at all it returns
`ResourceState::Valid`; a device-level creation failure (here
`CreateVertexShader` failing on the first program) makes the whole operation
abort fatally (`o_assert(SUCCEEDED(hr))`) instead of returning an error
value — the only outcomes are full success or a fatal fault. -/
theorem SetupResource_valid_or_fatal (dbg : Bool) (fac : d3d11ShaderFactory)
    (shd shd' : shader) (st : ResourceState) (tr : List DevEvent)
    (h : SetupResource dbg fac shd = some (shd', st, tr)) :
    st = ResourceState.Valid ∧
    ∀ (fac2 : d3d11ShaderFactory) (dev2 : Device) (p : ProgramDesc)
      (rest : List ProgramDesc),
      fac2.d3d11Device = some dev2 → dev2.vsOk 0 = false →
      shd.Setup.programs = p :: rest →
      SetupResource dbg fac2 shd = none := by
  constructor
  · obtain ⟨dev, pes, pevs, nid, ues, uevs, m, hdev, hpeq, hueq, hshd, hst, htr⟩ :=
      SetupResource_some_elim dbg fac shd shd' st tr h
    exact hst
  · intro fac2 dev2 p rest hdev hvs hprogs
    have hnone : setupPrograms dbg dev2 0 0 shd.Setup.programs = none := by
      rw [hprogs, setupPrograms]
      split
      · rfl
      · simp [hvs]
    rw [SetupResource]
    split
    · rfl
    split
    · rfl
    simp only [hdev, hnone]

end Oryol

namespace Oryol

/-- C6: calling `Setup` twice without an intervening `Discard` trips the
`o_assert_dbg(!isValid)` precondition in a debug build (fatal assertion), and
the same second call succeeds in an optimized build because the contract
assertion is compiled out. -/
theorem Setup_twice_fatal (fac fac' : d3d11ShaderFactory) (ptrs ptrs' : gfxPointers)
    (h : d3d11ShaderFactory.Setup true fac ptrs = some fac') :
    d3d11ShaderFactory.Setup true fac' ptrs' = none ∧
    (d3d11ShaderFactory.Setup false fac' ptrs').isSome = true := by
  rw [d3d11ShaderFactory.Setup] at h
  split at h
  · exact absurd h (by simp)
  simp only [Option.some.injEq] at h
  subst h
  exact ⟨rfl, rfl⟩

theorem mem_releasePrograms : ∀ (es : List programEntry) (e : DevEvent),
    e ∈ releasePrograms es → isRelease e = true := by
  intro es
  induction es with
  | nil => intro e he; simp [releasePrograms] at he
  | cons x rest ih =>
    intro e he
    rw [releasePrograms] at he
    rcases List.mem_append.mp he with h12 | h3
    · rcases List.mem_append.mp h12 with h1 | h2
      · cases hvs : x.vs <;> rw [hvs] at h1 <;> simp at h1
        subst h1; rfl
      · cases hps : x.ps <;> rw [hps] at h2 <;> simp at h2
        subst h2; rfl
    · exact ih e h3

theorem mem_releaseBuffers : ∀ (es : List ubEntry) (e : DevEvent),
    e ∈ releaseBuffers es → isRelease e = true := by
  intro es
  induction es with
  | nil => intro e he; simp [releaseBuffers] at he
  | cons x rest ih =>
    intro e he
    rw [releaseBuffers] at he
    rcases List.mem_append.mp he with h1 | h2
    · cases hcb : x.constantBuffer <;> rw [hcb] at h1 <;> simp at h1
      subst h1; rfl
    · exact ih e h2

/-- C7: in both `SetupResource` and `DestroyResource` the renderer's
`invalidateShaderState` call happens exactly once, as the first collaborator
call of the operation: every later event of the create trace is a device
creation, every later event of the destroy trace is a `Release`, and neither
tail contains another invalidation. -/
theorem invalidate_before_device_ops (dbg dbg2 : Bool)
    (fac fac2 : d3d11ShaderFactory) (shd shd' shd2 shd2' : shader)
    (st : ResourceState) (ctr dtr : List DevEvent)
    (hc : SetupResource dbg fac shd = some (shd', st, ctr))
    (hd : DestroyResource dbg2 fac2 shd2 = some (shd2', dtr)) :
    (∃ evs, ctr = DevEvent.invalidateShaderState :: evs ∧
      (∀ e ∈ evs, (isCreateShader e || isCreateBuf e) = true) ∧
      DevEvent.invalidateShaderState ∉ evs) ∧
    (∃ revs, dtr = DevEvent.invalidateShaderState :: revs ∧
      (∀ e ∈ revs, isRelease e = true) ∧
      DevEvent.invalidateShaderState ∉ revs) := by
  obtain ⟨dev, pes, pevs, nid, ues, uevs, m, hdev, hpeq, hueq, hshd, hst, htr⟩ :=
    SetupResource_some_elim dbg fac shd shd' st ctr hc
  obtain ⟨hshd2, hdtr⟩ := DestroyResource_some_elim dbg2 fac2 shd2 shd2' dtr hd
  obtain ⟨-, -, -, -, pcr, -, -, -⟩ :=
    setupPrograms_spec dbg dev _ 0 0 _ _ _ hpeq
  obtain ⟨-, -, -, -, ucr, -, -, -, -⟩ :=
    setupUniformBlocks_spec dbg dev _ 0 nid _ _ _ hueq
  constructor
  · refine ⟨pevs ++ uevs, htr, ?_, ?_⟩
    · intro e he
      rcases List.mem_append.mp he with h1 | h2
      · simp [pcr e h1]
      · simp [ucr e h2]
    · intro hmem
      rcases List.mem_append.mp hmem with h1 | h2
      · exact absurd (pcr _ h1) (by simp [isCreateShader])
      · exact absurd (ucr _ h2) (by simp [isCreateBuf])
  · refine ⟨_, hdtr, ?_, ?_⟩
    · intro e he
      rcases List.mem_append.mp he with h1 | h2
      · exact mem_releasePrograms _ e h1
      · exact mem_releaseBuffers _ e h2
    · intro hmem
      rcases List.mem_append.mp hmem with h1 | h2
      · exact absurd (mem_releasePrograms _ _ h1) (by simp [isRelease])
      · exact absurd (mem_releaseBuffers _ _ h2) (by simp [isRelease])

/-- C8: `DestroyResource` on an already-empty resource (no variant entries, no
uniform entries) performs zero `Release` calls — its trace is just the
invalidation — and leaves the resource unchanged and empty. -/
theorem DestroyResource_empty (dbg : Bool) (fac : d3d11ShaderFactory) (shd : shader)
    (hv : fac.isValid = true) (hd : fac.d3d11Device.isSome = true)
    (hp : shd.programEntries = []) (hu : shd.uniformBlockEntries = []) :
    DestroyResource dbg fac shd = some (shd, [DevEvent.invalidateShaderState]) := by
  obtain ⟨su, pe, ue⟩ := shd
  simp only at hp hu
  subst hp; subst hu
  simp [DestroyResource, shader.Clear, hv, hd, releasePrograms, releaseBuffers]

end Oryol

namespace Oryol

theorem OnRunningStep_iterate_curNum : ∀ n : Nat,
    (OnRunningStep^[n] gpuParticlesInit).curNumParticles
      = min ((n : Int) * NumParticlesEmittedPerFrame) MaxNumParticles := by
  intro n
  induction n with
  | zero =>
    simp [gpuParticlesInit, MaxNumParticles, NumParticlesX, NumParticlesY,
          NumParticlesEmittedPerFrame]
  | succ k ih =>
    rw [Function.iterate_succ_apply']
    simp only [OnRunningStep, MaxNumParticles, NumParticlesX, NumParticlesY,
               NumParticlesEmittedPerFrame] at ih ⊢
    rw [ih]
    split <;> (push_cast; omega)

/-- C9: in the GPUParticles sample, after `OnRunning` has run n ≥ 1 times from
the initial state, `curNumParticles` equals
`min(n * NumParticlesEmittedPerFrame, MaxNumParticles)` — it grows by 100 per
frame and is clamped at, and never exceeds, `MaxNumParticles`. -/
theorem gpuParticles_particle_count (n : Nat) (h : 1 ≤ n) :
    (OnRunningStep^[n] gpuParticlesInit).curNumParticles
      = min ((n : Int) * NumParticlesEmittedPerFrame) MaxNumParticles ∧
    (OnRunningStep^[n] gpuParticlesInit).curNumParticles ≤ MaxNumParticles := by
  have he := OnRunningStep_iterate_curNum n
  exact ⟨he, by rw [he]; exact min_le_right _ _⟩

/-- C10: for every integer `frameCount`, the ping-pong indices
`readIndex = (frameCount + 1) % 2` and `drawIndex = frameCount % 2` differ, so
the particle update never reads and renders the same state buffer in one
frame. -/
theorem pingpong_indices_distinct (k : Int) : readIndex k ≠ drawIndex k := by
  unfold readIndex drawIndex NumParticleBuffers
  rcases Int.even_or_odd k with ⟨m, hm⟩ | ⟨m, hm⟩
  · have h1 : Int.tmod k 2 = 0 := Int.tmod_eq_zero_of_dvd ⟨m, by omega⟩
    intro hEq
    have h2 : (2 : Int) ∣ k + 1 := Int.dvd_of_tmod_eq_zero (by rw [hEq, h1])
    obtain ⟨c, hc⟩ := h2
    omega
  · have h1 : Int.tmod (k + 1) 2 = 0 := Int.tmod_eq_zero_of_dvd ⟨m + 1, by omega⟩
    intro hEq
    have h2 : (2 : Int) ∣ k := Int.dvd_of_tmod_eq_zero (by rw [← hEq, h1])
    obtain ⟨c, hc⟩ := h2
    omega

end Oryol

namespace Oryol

/-- Witness for C1 on the spec's scenario. -/
theorem SetupResource_entry_counts_witness :
    sampleShd.programEntries = [] ∧ sampleShd.uniformBlockEntries = [] ∧
    SetupResource true facReady sampleShd
      = some (sampleShdOut, ResourceState.Valid, sampleTrace) ∧
    (sampleShdOut.programEntries.length = sampleShd.Setup.programs.length ∧
     sampleShdOut.uniformBlockEntries.length = sampleShd.Setup.uniformBlocks.length ∧
     sampleShdOut.programEntries.map programEntry.mask
       = sampleShd.Setup.programs.map ProgramDesc.mask ∧
     (∀ e ∈ sampleShdOut.programEntries, e.vs.isSome ∧ e.ps.isSome) ∧
     sampleShdOut.uniformBlockEntries.map ubEntry.bindSlot
       = sampleShd.Setup.uniformBlocks.map UniformBlockDesc.bindSlot ∧
     sampleShdOut.uniformBlockEntries.map ubEntry.bindShaderStage
       = sampleShd.Setup.uniformBlocks.map UniformBlockDesc.shaderStage) :=
  ⟨rfl, rfl, rfl,
   SetupResource_entry_counts true facReady sampleShd sampleShdOut
     ResourceState.Valid sampleTrace rfl rfl rfl⟩

/-- Witness for C2 on the spec's scenario. -/
theorem SetupResource_uniform_buffers_witness :
    sampleShd.programEntries = [] ∧ sampleShd.uniformBlockEntries = [] ∧
    SetupResource true facReady sampleShd
      = some (sampleShdOut, ResourceState.Valid, sampleTrace) ∧
    (List.Forall₂ (fun ub e =>
        e.bindShaderStage = ub.shaderStage ∧ e.bindSlot = ub.bindSlot ∧
        (ub.bindSlot = InvalidIndex → e.constantBuffer = none) ∧
        (ub.bindSlot ≠ InvalidIndex → ∃ id,
          e.constantBuffer = some id ∧
          DevEvent.createBuffer id (RoundUp ub.layout.byteSizeWithoutTextures 16)
            ∈ sampleTrace ∧
          16 ∣ RoundUp ub.layout.byteSizeWithoutTextures 16 ∧
          ub.layout.byteSizeWithoutTextures
            ≤ RoundUp ub.layout.byteSizeWithoutTextures 16 ∧
          ∀ w, 16 ∣ w → ub.layout.byteSizeWithoutTextures ≤ w →
            RoundUp ub.layout.byteSizeWithoutTextures 16 ≤ w))
        sampleShd.Setup.uniformBlocks sampleShdOut.uniformBlockEntries ∧
     (sampleTrace.filter isCreateBuf).length
       = numRealSlots sampleShd.Setup.uniformBlocks) :=
  ⟨rfl, rfl, rfl,
   SetupResource_uniform_buffers true facReady sampleShd sampleShdOut
     ResourceState.Valid sampleTrace rfl rfl rfl⟩

/-- Witness for C3 on the spec's scenario. -/
theorem create_destroy_roundtrip_witness :
    sampleShd.programEntries = [] ∧ sampleShd.uniformBlockEntries = [] ∧
    SetupResource true facReady sampleShd
      = some (sampleShdOut, ResourceState.Valid, sampleTrace) ∧
    DestroyResource true facReady sampleShdOut
      = some (sampleShd, sampleDestroyTrace) ∧
    (sampleShd.programEntries = [] ∧ sampleShd.uniformBlockEntries = [] ∧
     ∃ creates, sampleTrace = DevEvent.invalidateShaderState :: creates ∧
       sampleDestroyTrace
         = DevEvent.invalidateShaderState :: creates.map toRelease ∧
       (createdIds creates).Nodup) :=
  ⟨rfl, rfl, rfl, rfl,
   create_destroy_roundtrip true true facReady facReady sampleShd sampleShdOut
     sampleShd ResourceState.Valid sampleTrace sampleDestroyTrace rfl rfl rfl rfl⟩

/-- Witness for C4 on a zero-variant description. -/
theorem CreateShaderResource_requires_programs_witness :
    noProgShd.Setup.programs = [] ∧
    (ShaderSetupWellFormed noProgShd.Setup = false ∧
     ∀ (dbg : Bool) (fac : d3d11ShaderFactory),
       CreateShaderResource dbg fac noProgShd = none) :=
  ⟨rfl, CreateShaderResource_requires_programs noProgShd rfl⟩

/-- Witness for C5 on the spec's scenario. -/
theorem SetupResource_valid_or_fatal_witness :
    SetupResource true facReady sampleShd
      = some (sampleShdOut, ResourceState.Valid, sampleTrace) ∧
    (ResourceState.Valid = ResourceState.Valid ∧
     ∀ (fac2 : d3d11ShaderFactory) (dev2 : Device) (p : ProgramDesc)
       (rest : List ProgramDesc),
       fac2.d3d11Device = some dev2 → dev2.vsOk 0 = false →
       sampleShd.Setup.programs = p :: rest →
       SetupResource true fac2 sampleShd = none) :=
  ⟨rfl, SetupResource_valid_or_fatal true facReady sampleShd sampleShdOut
     ResourceState.Valid sampleTrace rfl⟩

/-- Witness for C6. -/
theorem Setup_twice_fatal_witness :
    d3d11ShaderFactory.Setup true facInitial ptrsNone = some facAfterSetup ∧
    (d3d11ShaderFactory.Setup true facAfterSetup ptrsNone = none ∧
     (d3d11ShaderFactory.Setup false facAfterSetup ptrsNone).isSome = true) :=
  ⟨rfl, Setup_twice_fatal facInitial facAfterSetup ptrsNone ptrsNone rfl⟩

/-- Witness for C7 on the spec's scenario. -/
theorem invalidate_before_device_ops_witness :
    SetupResource true facReady sampleShd
      = some (sampleShdOut, ResourceState.Valid, sampleTrace) ∧
    DestroyResource true facReady sampleShdOut
      = some (sampleShd, sampleDestroyTrace) ∧
    ((∃ evs, sampleTrace = DevEvent.invalidateShaderState :: evs ∧
       (∀ e ∈ evs, (isCreateShader e || isCreateBuf e) = true) ∧
       DevEvent.invalidateShaderState ∉ evs) ∧
     (∃ revs, sampleDestroyTrace = DevEvent.invalidateShaderState :: revs ∧
       (∀ e ∈ revs, isRelease e = true) ∧
       DevEvent.invalidateShaderState ∉ revs)) :=
  ⟨rfl, rfl,
   invalidate_before_device_ops true true facReady facReady sampleShd sampleShdOut
     sampleShdOut sampleShd ResourceState.Valid sampleTrace sampleDestroyTrace
     rfl rfl⟩

/-- Witness for C8: destroying an already-empty resource. -/
theorem DestroyResource_empty_witness :
    facReady.isValid = true ∧ facReady.d3d11Device.isSome = true ∧
    sampleShd.programEntries = [] ∧ sampleShd.uniformBlockEntries = [] ∧
    DestroyResource true facReady sampleShd
      = some (sampleShd, [DevEvent.invalidateShaderState]) :=
  ⟨rfl, rfl, rfl, rfl,
   DestroyResource_empty true facReady sampleShd rfl rfl rfl rfl⟩

/-- Witness for C9 at frame 3. -/
theorem gpuParticles_particle_count_witness :
    1 ≤ 3 ∧
    ((OnRunningStep^[3] gpuParticlesInit).curNumParticles
       = min ((3 : Int) * NumParticlesEmittedPerFrame) MaxNumParticles ∧
     (OnRunningStep^[3] gpuParticlesInit).curNumParticles ≤ MaxNumParticles) :=
  ⟨by decide, gpuParticles_particle_count 3 (by decide)⟩

end Oryol

